import Mathlib

/-!
# Shallow embedding of the Phaser FX layer

This file embeds, in Lean 4, the FX effect-descriptor code of the repository:

* `src/unnamed/part_000` — the `Blur` effect controller (constructor defaults and
  the packed-color getter/setter on `glcolor`);
* `src/unnamed/part_001` — the `Displacement` effect controller (texture-frame
  resolution by name);
* `src/src/gameobjects/components/FX.js` — the `FX` mixin applied to renderables
  (`setFXPadding`, `enableFX`, `disableFX`, `clearFX`, and the `add<Kind>FX` family).

JavaScript numbers are modelled as `ℚ` (the arithmetic the claims exercise —
division by 255, multiplication by 255, literals — is exact in IEEE doubles for
these operand ranges, so `ℚ` is a faithful model).  The 32-bit wrap-around that
the JS bitwise operators `<<`, `>>`, `&`, `|` apply to their operands (ToInt32)
is made explicit with `toInt32`.  Fallible operations (`push` on a `null` list)
return `Except`.
-/

/-! ## JS numeric primitives -/

/-- JS `ToInt32`: truncate to an integer (already done by `jsTrunc` for
fractional inputs) and wrap into the signed 32-bit range `[-2^31, 2^31)`. -/
def toInt32 (n : ℤ) : ℤ :=
  if n % 4294967296 < 2147483648 then n % 4294967296 else n % 4294967296 - 4294967296

/-- JS truncation toward zero, applied by ToInt32 to a fractional double. -/
def jsTrunc (x : ℚ) : ℤ :=
  if 0 ≤ x then ⌊x⌋ else -⌊-x⌋

/-- JS `a << 16` on an already-truncated operand: wrap the operand to int32,
shift (multiply by `2^16`), and wrap the result to int32. -/
def shl16 (n : ℤ) : ℤ := toInt32 (toInt32 n * 65536)

/-- JS `a << 8` on an already-truncated operand. -/
def shl8 (n : ℤ) : ℤ := toInt32 (toInt32 n * 256)

/-! ## The Blur controller (`src/unnamed/part_000`)

`glcolor` is the internal array `[r, g, b]` of normalized channels. -/

/-- The `glcolor` array `[ c0, c1, c2 ]` of a Blur controller. -/
structure GlColor where
  c0 : ℚ
  c1 : ℚ
  c2 : ℚ
deriving DecidableEq, Repr

/-- The `color` getter of `Blur`:
`(((color[0] * 255) << 16) + ((color[1] * 255) << 8) + (color[2] * 255 | 0))`.
Each shift first applies ToInt32 (truncate, wrap) to its left operand; `| 0`
likewise applies ToInt32.  The two `+` are exact double additions, so they are
plain integer additions here. -/
def colorGet (c : GlColor) : ℤ :=
  shl16 (jsTrunc (c.c0 * 255)) + shl8 (jsTrunc (c.c1 * 255)) + toInt32 (jsTrunc (c.c2 * 255))

/-- The `color` setter of `Blur`:
`color[0] = ((value >> 16) & 0xFF) / 255;` and similarly for the other two
channels.  `value >> 16` is ToInt32 followed by an arithmetic right shift,
i.e. floor division of the wrapped value by `2^16` (`Int.fdiv`); masking the
low byte of a two's-complement integer with `& 0xFF` is `% 256` (`Int.emod`,
non-negative result). -/
def colorSet (value : ℤ) : GlColor :=
  { c0 := (((toInt32 value).fdiv 65536 % 256 : ℤ) : ℚ) / 255
    c1 := (((toInt32 value).fdiv 256 % 256 : ℤ) : ℚ) / 255
    c2 := ((toInt32 value % 256 : ℤ) : ℚ) / 255 }

/-- The fields a `Blur` controller carries (the `type` tag `FX_CONST.BLUR` and
the game-object back-reference of the `Controller` base are not repeated here;
the kind tag is modelled in the registry below). -/
structure Blur where
  quality : ℚ
  x : ℚ
  y : ℚ
  steps : ℚ
  strength : ℚ
  glcolor : GlColor
deriving DecidableEq, Repr

/-- The `color` property getter on a `Blur` controller. -/
def Blur.color (b : Blur) : ℤ := colorGet b.glcolor

/-- The `color` property setter on a `Blur` controller (mutation modelled as a
record update). -/
def Blur.setColor (b : Blur) (value : ℤ) : Blur :=
  { b with glcolor := colorSet value }

/-- The `Blur` constructor.  `Option` models optional JS arguments
(`undefined`); for `color` the source checks both `undefined` and `null`, which
collapse to `none`.  Note the source computes the defaulted local `quality`
but then assigns the literal `0`: `this.quality = 0;`. -/
def mkBlur (quality x y strength : Option ℚ) (color : Option ℤ) (steps : Option ℚ) : Blur :=
  let _quality := quality.getD 0
  let x := x.getD 2
  let y := y.getD 2
  let strength := strength.getD 1
  let steps := steps.getD 4
  let b : Blur :=
    { quality := 0, x := x, y := y, steps := steps, strength := strength
      glcolor := { c0 := 1, c1 := 1, c2 := 1 } }
  match color with
  | some c => b.setColor c
  | none => b

/-! ## Helper lemmas for the 32-bit primitives -/

lemma toInt32_eq_self {n : ℤ} (h0 : -2147483648 ≤ n) (h1 : n < 2147483648) :
    toInt32 n = n := by
  unfold toInt32
  split <;> omega

lemma jsTrunc_intCast_nonneg {k : ℤ} (h : 0 ≤ k) : jsTrunc (k : ℚ) = k := by
  unfold jsTrunc
  rw [if_pos (by exact_mod_cast h), Int.floor_intCast]

lemma jsTrunc_byte_mul {k : ℤ} (h : 0 ≤ k) : jsTrunc ((k : ℚ) / 255 * 255) = k := by
  rw [div_mul_cancel₀ _ (by norm_num : (255 : ℚ) ≠ 0)]
  exact jsTrunc_intCast_nonneg h

lemma shl16_small {k : ℤ} (h0 : 0 ≤ k) (h1 : k < 256) : shl16 k = k * 65536 := by
  have hk : toInt32 k = k := toInt32_eq_self (by omega) (by omega)
  unfold shl16
  rw [hk, toInt32_eq_self (by omega) (by omega)]

lemma shl8_small {k : ℤ} (h0 : 0 ≤ k) (h1 : k < 256) : shl8 k = k * 256 := by
  have hk : toInt32 k = k := toInt32_eq_self (by omega) (by omega)
  unfold shl8
  rw [hk, toInt32_eq_self (by omega) (by omega)]

/-- Round-trip of the packed-color codec on 24-bit values. -/
lemma colorGet_colorSet {v : ℤ} (h0 : 0 ≤ v) (h1 : v ≤ 16777215) :
    colorGet (colorSet v) = v := by
  unfold colorGet colorSet
  rw [toInt32_eq_self (by omega) (by omega)]
  rw [Int.fdiv_eq_ediv _ (by norm_num), Int.fdiv_eq_ediv _ (by norm_num)]
  simp only [jsTrunc_byte_mul (by omega : (0:ℤ) ≤ v / 65536 % 256),
    jsTrunc_byte_mul (by omega : (0:ℤ) ≤ v / 256 % 256),
    jsTrunc_byte_mul (by omega : (0:ℤ) ≤ v % 256)]
  rw [shl16_small (by omega) (by omega), shl8_small (by omega) (by omega),
    toInt32_eq_self (by omega) (by omega)]
  omega

/-- The setter only sees the low 24 bits of an in-range 32-bit value. -/
lemma colorSet_mask {v : ℤ} (h0 : -2147483648 ≤ v) (h1 : v < 2147483648) :
    colorSet v = colorSet (v % 16777216) := by
  unfold colorSet
  rw [toInt32_eq_self h0 h1, toInt32_eq_self (by omega) (by omega)]
  rw [Int.fdiv_eq_ediv _ (by norm_num), Int.fdiv_eq_ediv _ (by norm_num),
    Int.fdiv_eq_ediv _ (by norm_num), Int.fdiv_eq_ediv _ (by norm_num)]
  have e0 : v / 65536 % 256 = v % 16777216 / 65536 % 256 := by omega
  have e1 : v / 256 % 256 = v % 16777216 / 256 % 256 := by omega
  have e2 : v % 256 = v % 16777216 % 256 := by omega
  rw [e0, e1, e2]

/-! ## The FX mixin (`src/src/gameobjects/components/FX.js`) -/

/-- The effect kinds whose `add<Kind>FX` methods the mixin exposes
(`FX_CONST` tags). -/
inductive FXKind
  | Glow | Shadow | Pixelate | Vignette | Shine | Blur | Gradient | Bloom
  | ColorMatrix | Circle | Barrel | Displacement
deriving DecidableEq, Repr

/-- Modelled from the spec: the `Controller` base class (`Controller.js` is not
part of the sources shown) — an effect descriptor carries an effect-kind tag
and an active flag; the non-owning back-reference to the owning renderable is
never read by the operations verified here and is omitted. -/
structure Controller where
  type : FXKind
  active : Bool
deriving DecidableEq, Repr

/-- Which pipeline a renderable currently points at. -/
inductive PipelineRef
  | default
  | fxPipeline
deriving DecidableEq, Repr

/-- The `TypeError` that `this.fx.push(fx)` raises when `this.fx` is `null`. -/
inductive JsError
  | typeError
deriving DecidableEq, Repr

/-- The per-renderable state the `FX` mixin reads and writes.  `hasRenderer`
and `hasPipelines` model the truthiness of `this.scene.sys.renderer` and
`renderer.pipelines`; `fx` is the nullable descriptor list (`fx: null` until
first enabled); `fxPadding` defaults to 0. -/
structure Renderable where
  hasRenderer : Bool
  hasPipelines : Bool
  pipeline : PipelineRef
  fx : Option (List Controller)
  fxPadding : ℚ
deriving DecidableEq, Repr

/-- `setFXPadding(padding)`: default the argument to 0, store it, return
`this` (modelled as returning the updated record). -/
def Renderable.setFXPadding (r : Renderable) (padding : Option ℚ) : Renderable :=
  { r with fxPadding := padding.getD 0 }

/-- `enableFX(padding)`: if there is no renderer or it has no pipelines,
return `this` unchanged; otherwise select the FX pipeline, allocate the
descriptor list when it is still `null` (`if (!this.fx) this.fx = [];` — an
existing array, even empty, is truthy and kept), and store the padding when
one was passed. -/
def Renderable.enableFX (r : Renderable) (padding : Option ℚ) : Renderable :=
  if !r.hasRenderer || !r.hasPipelines then r
  else
    { r with
      pipeline := PipelineRef.fxPipeline
      fx := some (r.fx.getD [])
      fxPadding := padding.getD r.fxPadding }

/-- `clearFX()`: the body is only the comment `//  Remove them all` — a stub
that changes nothing. -/
def Renderable.clearFX (r : Renderable) : Renderable := r

/-- `removeFX()`: the body is only the comment `//  Remove specific fx` — a
stub that changes nothing. -/
def Renderable.removeFX (r : Renderable) : Renderable := r

/-- Modelled from the spec: `resetPipeline()` is an operation the mixin
consumes from the renderable (not part of the sources shown); it reverts the
renderable to its default (non-FX) render pipeline. -/
def Renderable.resetPipeline (r : Renderable) : Renderable :=
  { r with pipeline := PipelineRef.default }

/-- `disableFX(clear)`: always `this.resetPipeline()`, then `this.clearFX()`
exactly when `clear` is truthy. -/
def Renderable.disableFX (r : Renderable) (clear : Bool) : Renderable :=
  let r1 := r.resetPipeline
  if clear then r1.clearFX else r1

/-- The common body of every `add<Kind>FX` method (the twelve methods differ
only in the descriptor constructor they call): `if (!this.fx) this.enableFX();`
then `this.fx.push(fx)` — which raises a `TypeError` when `this.fx` is still
`null` — and return the descriptor. -/
def Renderable.addFX (r : Renderable) (k : FXKind) : Except JsError (Controller × Renderable) :=
  let r1 := if r.fx = none then r.enableFX none else r
  match r1.fx with
  | none => Except.error JsError.typeError
  | some l =>
      let d : Controller := { type := k, active := true }
      Except.ok (d, { r1 with fx := some (l ++ [d]) })

/-- Fold `addFX` over a list of kinds, keeping only the renderable (used to
state the five-effects scenario). -/
def Renderable.addManyFX (r : Renderable) : List FXKind → Except JsError Renderable
  | [] => Except.ok r
  | k :: ks =>
      match r.addFX k with
      | Except.error e => Except.error e
      | Except.ok (_, r1) => r1.addManyFX ks

/-! ## The Displacement controller (`src/unnamed/part_001`) -/

/-- Modelled from the spec: the scene's texture manager
(`this.gameObject.scene.sys.textures`, not part of the sources shown), reduced
to the one operation used here — looking a texture frame up by name, yielding
its `glTexture` (an abstract handle) or nothing when the name is unknown. -/
structure Scene where
  frames : List (String × Nat)
deriving DecidableEq, Repr

/-- Modelled from the spec: `textures.getFrame(name)` — `none` when the named
frame does not exist. -/
def Scene.getFrame (s : Scene) (name : String) : Option Nat :=
  s.frames.lookup name

/-- The fields of a `Displacement` controller: the scene reached through the
game-object back-reference, the `x`/`y` displacement amounts, and the nullable
`glTexture` reference (`this.glTexture;` declares it without assigning). -/
structure Displacement where
  scene : Scene
  x : ℚ
  y : ℚ
  glTexture : Option Nat
deriving DecidableEq, Repr

/-- `setTexture(texture)`: look the frame up by name; only when it exists is
`this.glTexture` assigned — an unknown name leaves the field untouched. -/
def Displacement.setTexture (d : Displacement) (texture : String) : Displacement :=
  match d.scene.getFrame texture with
  | some t => { d with glTexture := some t }
  | none => d

/-- The `Displacement` constructor: `x = 0.005`, `y = 0.005`, `glTexture`
unassigned, then `this.setTexture('__WHITE')`. -/
def mkDisplacement (s : Scene) : Displacement :=
  Displacement.setTexture { scene := s, x := 0.005, y := 0.005, glTexture := none } "__WHITE"

/-! ## Concrete evaluations of the color codec -/

lemma jsTrunc_one_mul : jsTrunc ((1 : ℚ) * 255) = 255 := by
  unfold jsTrunc
  rw [if_pos (by norm_num)]
  norm_num

lemma jsTrunc_zero_mul : jsTrunc ((0 : ℚ) * 255) = 0 := by
  unfold jsTrunc
  rw [if_pos (by norm_num)]
  norm_num

lemma colorGet_ones : colorGet { c0 := 1, c1 := 1, c2 := 1 } = 16777215 := by
  show shl16 (jsTrunc ((1 : ℚ) * 255)) + shl8 (jsTrunc ((1 : ℚ) * 255)) +
      toInt32 (jsTrunc ((1 : ℚ) * 255)) = 16777215
  rw [jsTrunc_one_mul, shl16_small (by norm_num) (by norm_num),
    shl8_small (by norm_num) (by norm_num), toInt32_eq_self (by norm_num) (by norm_num)]
  norm_num

lemma colorGet_zeros : colorGet { c0 := 0, c1 := 0, c2 := 0 } = 0 := by
  show shl16 (jsTrunc ((0 : ℚ) * 255)) + shl8 (jsTrunc ((0 : ℚ) * 255)) +
      toInt32 (jsTrunc ((0 : ℚ) * 255)) = 0
  rw [jsTrunc_zero_mul, shl16_small (by norm_num) (by norm_num),
    shl8_small (by norm_num) (by norm_num), toInt32_eq_self (by norm_num) (by norm_num)]
  norm_num

lemma colorSet_red : colorSet 16711680 = { c0 := 1, c1 := 0, c2 := 0 } := by
  have ht : toInt32 16711680 = 16711680 := toInt32_eq_self (by norm_num) (by norm_num)
  unfold colorSet
  rw [ht, Int.fdiv_eq_ediv _ (by norm_num), Int.fdiv_eq_ediv _ (by norm_num)]
  norm_num [GlColor.mk.injEq]

/-! ## Claims C1, C2, C5, C7 — the Blur color codec and constructor -/

/-- C1: For every 24-bit integer `v`, setting the Blur descriptor's `color`
property to `v` and then reading the `color` property returns exactly `v`;
in particular `unpack(0xFF0000) = (1,0,0)`, `pack(1,1,1) = 0xFFFFFF`, and
`pack(0,0,0) = 0x000000`. -/
theorem blur_color_roundtrip (b : Blur) (v : ℤ) (h0 : 0 ≤ v) (h1 : v ≤ 16777215) :
    (b.setColor v).color = v ∧
    colorSet 16711680 = { c0 := 1, c1 := 0, c2 := 0 } ∧
    colorGet { c0 := 1, c1 := 1, c2 := 1 } = 16777215 ∧
    colorGet { c0 := 0, c1 := 0, c2 := 0 } = 0 :=
  ⟨colorGet_colorSet h0 h1, colorSet_red, colorGet_ones, colorGet_zeros⟩

/-- Witness for C1 at `v = 0x123456`. -/
theorem blur_color_roundtrip_witness :
    ((mkBlur none none none none none none).setColor 1193046).color = 1193046 :=
  (blur_color_roundtrip (mkBlur none none none none none none) 1193046
    (by decide) (by decide)).1

/-- C2 (code bug): the `Blur` constructor computes the defaulted `quality`
argument but then assigns the literal `0` (`this.quality = 0;`), so passing
`quality = 1` yields a descriptor whose `quality` field is `0`, not `1`. -/
theorem mkBlur_quality_discarded :
    (mkBlur (some 1) none none none none none).quality = 0 := rfl

/-- C5: constructing a Blur descriptor with no arguments yields `quality = 0`,
`x = 2`, `y = 2`, `strength = 1`, `steps = 4`, `glcolor = [1,1,1]`, and a
`color` property reading back `0xFFFFFF`. -/
theorem mkBlur_defaults :
    mkBlur none none none none none none =
      { quality := 0, x := 2, y := 2, steps := 4, strength := 1,
        glcolor := { c0 := 1, c1 := 1, c2 := 1 } } ∧
    (mkBlur none none none none none none).color = 16777215 :=
  ⟨rfl, colorGet_ones⟩

/-- C7: for every 32-bit integer `v`, setting the Blur `color` property to `v`
produces the same `glcolor` channels as setting it to `v` masked to 24 bits
(`v % 2^24`); out-of-range inputs are masked implicitly, never rejected. -/
theorem blur_color_masks_to_24_bits (b : Blur) (v : ℤ)
    (h0 : -2147483648 ≤ v) (h1 : v < 2147483648) :
    (b.setColor v).glcolor = (b.setColor (v % 16777216)).glcolor := by
  show colorSet v = colorSet (v % 16777216)
  exact colorSet_mask h0 h1

/-- Witness for C7 at `v = 0x1FFFFFF` (25 bits). -/
theorem blur_color_masks_to_24_bits_witness :
    ((mkBlur none none none none none none).setColor 33554431).glcolor =
      ((mkBlur none none none none none none).setColor (33554431 % 16777216)).glcolor :=
  blur_color_masks_to_24_bits (mkBlur none none none none none none) 33554431
    (by decide) (by decide)

/-! ## Claims C3, C4, C6, C9, C10 — the FX mixin -/

/-- `enableFX` is the identity when the scene has no renderer or the renderer
has no pipelines (shared helper). -/
lemma enableFX_noop_aux (r : Renderable) (p : Option ℚ)
    (h : r.hasRenderer = false ∨ r.hasPipelines = false) : r.enableFX p = r := by
  unfold Renderable.enableFX
  rcases h with h | h <;> simp [h]

/-- C4: on a renderable whose scene has no renderer, or whose renderer has no
pipelines, `enableFX` is a silent no-op: it returns the renderable unchanged,
leaving the descriptor list, the pipeline, and the padding as they were. -/
theorem enableFX_silent_noop (r : Renderable) (p : Option ℚ)
    (h : r.hasRenderer = false ∨ r.hasPipelines = false) :
    r.enableFX p = r ∧
    (r.enableFX p).fx = r.fx ∧
    (r.enableFX p).pipeline = r.pipeline ∧
    (r.enableFX p).fxPadding = r.fxPadding := by
  have e := enableFX_noop_aux r p h
  exact ⟨e, by rw [e], by rw [e], by rw [e]⟩

/-- Witness for C4 on a renderable with a renderer but no pipelines. -/
theorem enableFX_silent_noop_witness :
    Renderable.enableFX
        { hasRenderer := true, hasPipelines := false, pipeline := PipelineRef.default,
          fx := none, fxPadding := 0 } (some 8) =
      { hasRenderer := true, hasPipelines := false, pipeline := PipelineRef.default,
        fx := none, fxPadding := 0 } :=
  (enableFX_silent_noop
    { hasRenderer := true, hasPipelines := false, pipeline := PipelineRef.default,
      fx := none, fxPadding := 0 } (some 8) (Or.inr rfl)).1

/-- C3: when a pipeline is available, `add<Kind>FX` appends a descriptor with
the kind tag of the operation to the end of the list (enabling lazily when the
list is still unallocated) and returns that descriptor; adding five different
kinds to a freshly enabled renderable yields a list of length 5 in insertion
order with the corresponding tags. -/
theorem addFX_appends (r : Renderable) (k : FXKind)
    (hr : r.hasRenderer = true) (hp : r.hasPipelines = true) :
    (∃ d r1, r.addFX k = Except.ok (d, r1) ∧ d.type = k ∧
      r1.fx = some (r.fx.getD [] ++ [d])) ∧
    Renderable.addManyFX
        { hasRenderer := true, hasPipelines := true, pipeline := PipelineRef.default,
          fx := none, fxPadding := 0 }
        [FXKind.Glow, FXKind.Shadow, FXKind.Pixelate, FXKind.Vignette, FXKind.Shine] =
      Except.ok
        { hasRenderer := true, hasPipelines := true, pipeline := PipelineRef.fxPipeline,
          fx := some [{ type := FXKind.Glow, active := true },
            { type := FXKind.Shadow, active := true },
            { type := FXKind.Pixelate, active := true },
            { type := FXKind.Vignette, active := true },
            { type := FXKind.Shine, active := true }],
          fxPadding := 0 } := by
  constructor
  · cases hfx : r.fx with
    | none =>
        have e1 : r.addFX k =
            Except.ok ({ type := k, active := true },
              { r with
                pipeline := PipelineRef.fxPipeline
                fx := some [{ type := k, active := true }] }) := by
          simp [Renderable.addFX, Renderable.enableFX, hfx, hr, hp]
        exact ⟨_, _, e1, rfl, by simp [hfx]⟩
    | some l =>
        have e1 : r.addFX k =
            Except.ok ({ type := k, active := true },
              { r with fx := some (l ++ [{ type := k, active := true }]) }) := by
          simp [Renderable.addFX, hfx]
        exact ⟨_, _, e1, rfl, by simp [hfx]⟩
  · rfl

/-- Witness for C3: adding a Glow effect to a fresh renderable with pipelines. -/
theorem addFX_appends_witness :
    (∃ d r1, Renderable.addFX
        { hasRenderer := true, hasPipelines := true, pipeline := PipelineRef.default,
          fx := none, fxPadding := 0 } FXKind.Glow = Except.ok (d, r1) ∧
      d.type = FXKind.Glow ∧ r1.fx = some [d]) ∧
    Renderable.addManyFX
        { hasRenderer := true, hasPipelines := true, pipeline := PipelineRef.default,
          fx := none, fxPadding := 0 }
        [FXKind.Glow, FXKind.Shadow, FXKind.Pixelate, FXKind.Vignette, FXKind.Shine] =
      Except.ok
        { hasRenderer := true, hasPipelines := true, pipeline := PipelineRef.fxPipeline,
          fx := some [{ type := FXKind.Glow, active := true },
            { type := FXKind.Shadow, active := true },
            { type := FXKind.Pixelate, active := true },
            { type := FXKind.Vignette, active := true },
            { type := FXKind.Shine, active := true }],
          fxPadding := 0 } :=
  addFX_appends
    { hasRenderer := true, hasPipelines := true, pipeline := PipelineRef.default,
      fx := none, fxPadding := 0 } FXKind.Glow rfl rfl

/-- C6: `disableFX(clear)` resets the pipeline to the default one via
`resetPipeline`, invokes `clearFX` exactly when `clear` is true, and
`disableFX(false)` leaves the descriptor list unchanged. -/
theorem disableFX_resets (r : Renderable) (clear : Bool) :
    (r.disableFX clear).pipeline = PipelineRef.default ∧
    r.disableFX true = r.resetPipeline.clearFX ∧
    r.disableFX false = r.resetPipeline ∧
    (r.disableFX false).fx = r.fx := by
  refine ⟨?_, rfl, rfl, rfl⟩
  cases clear <;> rfl

/-- C9: `setFXPadding(n)` stores `n` (or `0` when no argument is given) in
`fxPadding`, never fails, and changes none of the other fields of the
renderable it returns. -/
theorem setFXPadding_stores (r : Renderable) (n : ℚ) :
    (r.setFXPadding (some n)).fxPadding = n ∧
    (r.setFXPadding none).fxPadding = 0 ∧
    (r.setFXPadding (some n)).hasRenderer = r.hasRenderer ∧
    (r.setFXPadding (some n)).hasPipelines = r.hasPipelines ∧
    (r.setFXPadding (some n)).pipeline = r.pipeline ∧
    (r.setFXPadding (some n)).fx = r.fx :=
  ⟨rfl, rfl, rfl, rfl, rfl, rfl⟩

/-- C10: with no renderer (or no pipelines) and a still-null descriptor list,
`add<Kind>FX` raises a `TypeError` instead of failing silently: the lazy
`enableFX` returns without allocating the list, and `this.fx.push` then
dereferences `null`. -/
theorem addFX_throws_without_pipeline (r : Renderable) (k : FXKind)
    (hfx : r.fx = none) (h : r.hasRenderer = false ∨ r.hasPipelines = false) :
    r.addFX k = Except.error JsError.typeError := by
  unfold Renderable.addFX
  simp [hfx, enableFX_noop_aux r none h]

/-- Witness for C10: adding a Blur effect on a renderable without a renderer. -/
theorem addFX_throws_without_pipeline_witness :
    Renderable.addFX
        { hasRenderer := false, hasPipelines := false, pipeline := PipelineRef.default,
          fx := none, fxPadding := 0 } FXKind.Blur =
      Except.error JsError.typeError :=
  addFX_throws_without_pipeline
    { hasRenderer := false, hasPipelines := false, pipeline := PipelineRef.default,
      fx := none, fxPadding := 0 } FXKind.Blur rfl (Or.inl rfl)

/-! ## Claim C8 — Displacement texture resolution -/

/-- C8: the `Displacement` constructor resolves the frame named `__WHITE` at
construction time; when the scene has no such frame, `glTexture` is left unset
and no exception is raised, and a later `setTexture` with an unknown name
likewise leaves the controller untouched. -/
theorem displacement_missing_frame (s : Scene) (d : Displacement) (name : String)
    (h : s.getFrame "__WHITE" = none) (hn : d.scene.getFrame name = none) :
    (mkDisplacement s).glTexture = none ∧ d.setTexture name = d := by
  constructor
  · show (Displacement.setTexture
      { scene := s, x := 0.005, y := 0.005, glTexture := none } "__WHITE").glTexture = none
    unfold Displacement.setTexture
    simp [h]
  · unfold Displacement.setTexture
    simp [hn]

/-- Witness for C8 on a scene with no frames at all. -/
theorem displacement_missing_frame_witness :
    (mkDisplacement { frames := [] }).glTexture = none ∧
    Displacement.setTexture
        { scene := { frames := [] }, x := 0, y := 0, glTexture := some 7 } "BUMP" =
      { scene := { frames := [] }, x := 0, y := 0, glTexture := some 7 } :=
  displacement_missing_frame { frames := [] }
    { scene := { frames := [] }, x := 0, y := 0, glTexture := some 7 } "BUMP" rfl rfl
